import Mathlib

/-!
Verification of the BuildXL macOS/Linux sandbox event-capture core
(`Public/Src/Sandbox/MacOs/Interop/Sandbox/Data/IOEvent.hpp`,
`Public/Src/Sandbox/MacOs/Detours/Detours.hpp`) against its
natural-language specification.

Modelling conventions:
* C strings / `std::string` values are byte lists (`List Nat`); a null
  `const char*` argument is `none : Option (List Nat)`.
* `pid_t`, `mode_t`, `es_event_type_t` are `Nat` (the enum's ordinal value).
* A `stat` call is a function `List Nat → Option Nat` returning the mode on
  success and `none` on failure.
* A failing `assert` aborts construction: constructors guarded by an assert
  return `Option IOEvent`, with `none` for the aborted case.
* The uninitialized `audit_token_t auditToken_` member is modelled as an
  `Option`, `none` meaning "never populated".
-/

namespace BuildXLSandbox

/-- Ordinal of `ES_EVENT_TYPE_NOTIFY_EXEC` in the `es_event_type_t` enum of
`stdafx-linux.h` (position 9, counting from `ES_EVENT_TYPE_AUTH_EXEC = 0`). -/
def ES_EVENT_TYPE_NOTIFY_EXEC : Nat := 9

/-- Ordinal of `ES_EVENT_TYPE_NOTIFY_FORK` in `es_event_type_t`. -/
def ES_EVENT_TYPE_NOTIFY_FORK : Nat := 11

/-- Ordinal of `ES_EVENT_TYPE_NOTIFY_CREATE` in `es_event_type_t`. -/
def ES_EVENT_TYPE_NOTIFY_CREATE : Nat := 13

/-- Ordinal of `ES_EVENT_TYPE_NOTIFY_EXIT` in `es_event_type_t`. -/
def ES_EVENT_TYPE_NOTIFY_EXIT : Nat := 15

/-- Ordinal of `ES_EVENT_TYPE_NOTIFY_WRITE` in `es_event_type_t`. -/
def ES_EVENT_TYPE_NOTIFY_WRITE : Nat := 33

/-- The `audit_token_t` struct of `stdafx-linux.h`: eight unsigned words. -/
structure audit_token_t where
  val : List Nat
deriving DecidableEq, Repr

/-- A filesystem, as seen through `stat`: maps a path to `some st_mode` when
the query succeeds and to `none` when it fails. -/
def FileSystem : Type := List Nat → Option Nat

/-- The `IOEvent` record of `IOEvent.hpp` (fields `pid_`, `cpid_`, `ppid_`,
`eventType_`, `mode_`, `modified_`, `executable_`, `src_path_`, `dst_path_`,
`oppid_`, `auditToken_`). `auditToken` is `none` when the member was never
assigned. -/
structure IOEvent where
  pid : Nat
  cpid : Nat
  ppid : Nat
  eventType : Nat
  mode : Nat
  modified : Bool
  executable : List Nat
  src_path : List Nat
  dst_path : List Nat
  oppid : Nat
  auditToken : Option audit_token_t
deriving DecidableEq, Repr

namespace IOEvent

/-- Constructor (a) of `IOEvent.hpp` (lines 62-85): from raw identifiers with a
`get_mode` flag.  `assert(!exec.empty())` aborts when the executable path is
empty (`none`); otherwise `src`/`dst` null pointers become empty strings,
`oppid_ = ppid_`, and if `get_mode` is set, `mode_` is the result of
`stat(src_path_)`, defaulting to `0` on failure (`mode_`'s member initializer). -/
def mkQueryMode (fs : FileSystem) (pid cpid ppid : Nat) (type : Nat)
    (src dst : Option (List Nat)) (exec : List Nat)
    (get_mode : Bool := true) (modified : Bool := false) : Option IOEvent :=
  if exec = [] then none
  else
    let src_path := src.getD []
    let dst_path := dst.getD []
    some { pid := pid, cpid := cpid, ppid := ppid, eventType := type,
           mode := if get_mode then (fs src_path).getD 0 else 0,
           modified := modified, executable := exec,
           src_path := src_path, dst_path := dst_path,
           oppid := ppid, auditToken := none }

/-- Constructor (b) of `IOEvent.hpp` (lines 87-98): from raw identifiers with
an explicit `mode_t`.  Its initializer list sets every field (in particular
`oppid_(ppid)`); the body is empty — there is no assert and no filesystem
query. -/
def mkExplicitMode (pid cpid ppid : Nat) (type : Nat)
    (src dst : List Nat) (exec : List Nat)
    (mode : Nat) (modified : Bool := false) : IOEvent :=
  { pid := pid, cpid := cpid, ppid := ppid, oppid := ppid, eventType := type,
    src_path := src, dst_path := dst, executable := exec,
    mode := mode, modified := modified, auditToken := none }

/-- Convenience constructor of `IOEvent.hpp` (lines 100-108): delegates to the
explicit-mode constructor with `getpid()`, `0`, `getppid()`.  The ambient
process identity (`getpid()`, `getppid()`) is passed in as arguments. -/
def mkConvenience (getpid getppid : Nat) (type : Nat)
    (src : List Nat) (exec : List Nat) (mode : Nat)
    (modified : Bool := false) (dest : List Nat := []) : IOEvent :=
  mkExplicitMode getpid 0 getppid type src dest exec mode modified

/-- Accessor `GetPid`. -/
def GetPid (e : IOEvent) : Nat := e.pid

/-- Accessor `GetParentPid`. -/
def GetParentPid (e : IOEvent) : Nat := e.ppid

/-- Accessor `GetChildPid`. -/
def GetChildPid (e : IOEvent) : Nat := e.cpid

/-- Accessor `GetOriginalParentPid`. -/
def GetOriginalParentPid (e : IOEvent) : Nat := e.oppid

/-- Accessor `GetEventType`. -/
def GetEventType (e : IOEvent) : Nat := e.eventType

/-- Accessor `GetMode`. -/
def GetMode (e : IOEvent) : Nat := e.mode

/-- Accessor `FSEntryModified`. -/
def FSEntryModified (e : IOEvent) : Bool := e.modified

/-- Accessor `EventPathExists` (`IOEvent.hpp` line 137): `mode_ != 0`. -/
def EventPathExists (e : IOEvent) : Bool := e.mode != 0

end IOEvent

/-- `PID_MAX` (`IOEvent.hpp` line 22). -/
def PID_MAX : Nat := 99999

/-- `USHRT_MAX` from `<limits.h>`. -/
def USHRT_MAX : Nat := 65535

/-- `PATH_MAX` from `<limits.h>` (1024 on macOS). -/
def PATH_MAX : Nat := 1024

/-- Length of `std::to_string(n)` for a non-negative integer: the number of
decimal digits of `n`. -/
def decimalWidth (n : Nat) : Nat := (Nat.toDigits 10 n).length

/-- `IOEvent::max_size()` (`IOEvent.hpp` lines 145-152), transcribed term by
term: three pids, type and mode, the modified flag (`std::to_string(true)` is
`std::to_string(1)`), three paths, nine delimiters. -/
def max_size : Nat :=
  3 * decimalWidth PID_MAX +
  2 * decimalWidth USHRT_MAX +
  decimalWidth 1 +
  3 * PATH_MAX +
  9

/-!
Interposition wrappers: the event-constructor macros of `Detours.hpp`.  Each
macro body runs on the thread of the intercepted call; the ambient process
state it consults (`getpid()`, `getppid()`, `get_executable_path`, `stat`,
and the errno mutation performed by the construct-and-send sequence) is
gathered into a `SandboxEnv` record.  Each wrapper model returns the list of
events it hands to `send_to_sandbox` (empty or a singleton) plus the errno
value in effect when the macro's text finishes.
-/

/-- Ambient process environment consulted by the `Detours.hpp` macros.
`sendErrnoEffect` abstracts the (unspecified) errno mutation performed by the
construct-and-send sequence (`get_executable_path`, the `IOEvent` constructor
and `send_to_sandbox` may each set errno). -/
structure SandboxEnv where
  fs : FileSystem
  get_executable_path : Nat → List Nat
  sendErrnoEffect : Nat → Nat
  getpid : Nat
  getppid : Nat

/-- The `PathCacheEntry`-valued map `trackedPaths_` consulted by
`WRITE_EVENT_CONSTRUCTOR`: an association list from a path to the file
descriptor stored in its `PathCacheEntry`. -/
structure WriteState where
  trackedPaths : List (List Nat × Int)
deriving DecidableEq, Repr

/-- `trackedPaths_->get(path)`: the entry stored for `path`, if any. -/
def cacheGet (c : List (List Nat × Int)) (p : List Nat) : Option Int :=
  (c.find? (fun e => e.1 == p)).map Prod.snd

/-- Outcome of one wrapper macro: the events handed to `send_to_sandbox`, the
errno value when the macro's statement list finishes, and the value the
wrapper returns to its caller. -/
structure WrapperResult where
  events : List IOEvent
  errno : Nat
  result : Int
deriving Repr

/-- `DEFAULT_EVENT_CONSTRUCTOR(type, src, dst, mode)` (`Detours.hpp` lines
35-40): saves errno, constructs via constructor (a) with `getpid()`, `0`,
`getppid()` and the given `get_mode` flag, sends, restores errno, returns
`result`. -/
def defaultWrapper (env : SandboxEnv) (type : Nat)
    (src dst : Option (List Nat)) (get_mode : Bool)
    (result : Int) (errno0 : Nat) : WrapperResult :=
  let old_errno := errno0
  let events :=
    match IOEvent.mkQueryMode env.fs env.getpid 0 env.getppid type src dst
        (env.get_executable_path env.getpid) get_mode false with
    | some ev => [ev]
    | none => []
  { events := events, errno := old_errno, result := result }

/-- `DEFAULT_EVENT_CONSTRUCTOR_NO_RESOLVE(type, src, dst, mode, report)`
(`Detours.hpp` lines 42-49): saves errno; only when `report` holds does it
construct (with `get_mode = true`, the literal 8th argument) and send;
restores errno, returns `result`. -/
def defaultNoResolveWrapper (env : SandboxEnv) (type : Nat)
    (src dst : Option (List Nat)) (report : Bool)
    (result : Int) (errno0 : Nat) : WrapperResult :=
  let old_errno := errno0
  let events :=
    if report then
      match IOEvent.mkQueryMode env.fs env.getpid 0 env.getppid type src dst
          (env.get_executable_path env.getpid) true false with
      | some ev => [ev]
      | none => []
    else []
  { events := events, errno := old_errno, result := result }

/-- `EXEC_EVENT_CONSTRUCTOR(path)` (`Detours.hpp` lines 51-53): constructs a
`NOTIFY_EXEC` event via constructor (a) with `get_mode = false` and sends it.
The macro neither saves nor restores errno and has no return statement, so the
model returns the events plus the errno left behind by the construct-and-send
sequence. -/
def execWrapper (env : SandboxEnv) (path : List Nat) (errno0 : Nat) :
    List IOEvent × Nat :=
  let events :=
    match IOEvent.mkQueryMode env.fs env.getpid 0 env.getppid
        ES_EVENT_TYPE_NOTIFY_EXEC (some path) (some [])
        (env.get_executable_path env.getpid) false false with
    | some ev => [ev]
    | none => []
  (events, env.sendErrnoEffect errno0)

/-- `EXIT_EVENT_CONSTRUCTOR()` (`Detours.hpp` lines 55-57): constructs a
`NOTIFY_EXIT` event via constructor (a) with `get_mode = false` and sends it.
Like the exec macro it neither saves nor restores errno. -/
def exitWrapper (env : SandboxEnv) (errno0 : Nat) : List IOEvent × Nat :=
  let events :=
    match IOEvent.mkQueryMode env.fs env.getpid 0 env.getppid
        ES_EVENT_TYPE_NOTIFY_EXIT (some []) (some [])
        (env.get_executable_path env.getpid) false false with
    | some ev => [ev]
    | none => []
  (events, env.sendErrnoEffect errno0)

/-- `FORK_EVENT_CONSTRUCTOR(result, child_pid, pid, ppid, cmp)` (`Detours.hpp`
lines 59-67): saves errno; when `result cmp 0` holds (the success comparison
`cmp` is a macro argument, modelled as a predicate on `result`), resolves the
child's executable path from `*child_pid` and constructs a `NOTIFY_FORK` event
via constructor (a) with empty source and destination and `get_mode = false`;
restores errno; returns `result`. -/
def forkWrapper (env : SandboxEnv) (cmp : Int → Bool) (result : Int)
    (child_pid pid ppid : Nat) (errno0 : Nat) : WrapperResult :=
  let old_errno := errno0
  let events :=
    if cmp result then
      let fullpath := env.get_executable_path child_pid
      match IOEvent.mkQueryMode env.fs pid child_pid ppid
          ES_EVENT_TYPE_NOTIFY_FORK (some []) (some []) fullpath false false with
      | some ev => [ev]
      | none => []
    else []
  { events := events, errno := old_errno, result := result }

/-- `STAT_EVENT_CONSTRUCTOR(type, src)` (`Detours.hpp` lines 69-74): saves
errno, constructs with `s->st_mode` as the 8th argument — overload resolution
picks constructor (a), converting the `mode_t` to the `get_mode` flag — sends,
restores errno, returns `result`. -/
def statWrapper (env : SandboxEnv) (type : Nat) (src : Option (List Nat))
    (st_mode : Nat) (result : Int) (errno0 : Nat) : WrapperResult :=
  let old_errno := errno0
  let events :=
    match IOEvent.mkQueryMode env.fs env.getpid 0 env.getppid type src (some [])
        (env.get_executable_path env.getpid) (st_mode != 0) false with
    | some ev => [ev]
    | none => []
  { events := events, errno := old_errno, result := result }

/-- `WRITE_EVENT_CONSTRUCTOR(path, dst)` (`Detours.hpp` lines 76-88): saves
errno; when the intercepted call succeeded (`success == 0`) and
`trackedPaths_->get(path)` is empty, inserts a new `PathCacheEntry(fildes)`
for `path` and only then constructs a `NOTIFY_WRITE` event via constructor (a)
(defaults: `get_mode = true`, `modified = false`) and sends it; restores
errno; returns `result`. -/
def writeWrapper (env : SandboxEnv) (success : Int) (fildes : Int)
    (path dst : List Nat) (st : WriteState)
    (result : Int) (errno0 : Nat) : WrapperResult × WriteState :=
  let old_errno := errno0
  if success = 0 then
    let reported := (cacheGet st.trackedPaths path).isSome
    if !reported then
      let st := WriteState.mk ((path, fildes) :: st.trackedPaths)
      let events :=
        match IOEvent.mkQueryMode env.fs env.getpid 0 env.getppid
            ES_EVENT_TYPE_NOTIFY_WRITE (some path) (some dst)
            (env.get_executable_path env.getpid) true false with
        | some ev => [ev]
        | none => []
      ({ events := events, errno := old_errno, result := result }, st)
    else ({ events := [], errno := old_errno, result := result }, st)
  else ({ events := [], errno := old_errno, result := result }, st)

/-!
Kernel-message backing.  `IOEvent.hpp` declares `IOEvent(const es_message_t*)`
and the per-type extraction macro `ES_EVENT_CONSTRUCTOR(type, dir, file, mode,
do_break)`, but the switch over the message's event type lives in
`IOEvent.cpp`, which is not among the provided sources; the adapter is
therefore modelled from the specification.
-/

/-- An `es_message_t` as the adapter consumes it: the event-type discriminant,
process identity, an audit token, the process's executable path, and the
type-specific payload (a file object carrying a path and a `st_mode`). -/
structure ESMessage where
  eventType : Nat
  pid : Nat
  ppid : Nat
  oppid : Nat
  auditToken : audit_token_t
  executable : List Nat
  payloadPath : Option (List Nat)
  payloadMode : Nat
deriving DecidableEq, Repr

/-- One extraction rule of the per-type table, matching the shape of the
`ES_EVENT_CONSTRUCTOR(type, dir, file, mode, do_break)` macro: whether the
rule reads the payload file's path into the source path, and whether it reads
the payload file's `stat.st_mode` into the mode. -/
structure ExtractRule where
  usePath : Bool
  useMode : Bool
deriving DecidableEq, Repr

/-- The unhandled-variant failure raised for a kernel event type that has no
extraction rule. -/
structure UnhandledESEvent where
  eventType : Nat
deriving DecidableEq, Repr

/-- Modelled from the spec: the kernel-message adapter
`IOEvent(const es_message_t*)` of `IOEvent.cpp` (absent from the provided
sources).  Per §4.1(c) it "switches on `eventType` and extracts the relevant
path/mode fields from the type-specific payload shape; this is a table of
per-event-type extraction rules", and "any event type without a defined
extraction rule must be treated as an unhandled-variant error, not silently
ignored".  The table is a parameter mapping a discriminant to its rule
(`none` = no rule defined). -/
def mkFromESMessage (table : Nat → Option ExtractRule) (msg : ESMessage) :
    Except UnhandledESEvent IOEvent :=
  match table msg.eventType with
  | none => Except.error { eventType := msg.eventType }
  | some rule =>
      Except.ok
        { pid := msg.pid, cpid := 0, ppid := msg.ppid,
          eventType := msg.eventType,
          mode := if rule.useMode then msg.payloadMode else 0,
          modified := false,
          executable := msg.executable,
          src_path := if rule.usePath then msg.payloadPath.getD [] else [],
          dst_path := [],
          oppid := msg.oppid, auditToken := some msg.auditToken }

/-!
Wire codec.  `IOEvent.hpp` declares the friend operators
`omemorystream& operator<<` and `imemorystream& operator>>`, implemented in
`IOEvent.cpp`, which is not among the provided sources; the codec is modelled
from the specification: each of the nine fields accounted by `max_size`
(three pids, event type, mode, the modified flag, and the three paths) is
written in decimal text (paths as raw bytes) followed by a delimiter byte
that no payload byte may equal, and decoding a sequence that does not split
into exactly nine fields fails.
-/

/-- Modelled from the spec: the delimiter byte of the wire encoding
(`operator<<` in `IOEvent.cpp`, absent from the provided sources).  The spec
requires "a delimiter outside the valid path character set"; `|` (byte 124)
is used. -/
def DELIM : Nat := 124

/-- Decimal text encoding of a non-negative integer field: its base-10 digits
as ASCII bytes (little-endian digit order; the order is irrelevant to the
round-trip as long as decoding mirrors it). -/
def encNat (n : Nat) : List Nat := (Nat.digits 10 n).map (fun d => d + 48)

/-- Decimal text decoding, inverse of `encNat`. -/
def decNat (l : List Nat) : Nat := Nat.ofDigits 10 (l.map (fun d => d - 48))

/-- Joins fields, terminating each with the delimiter byte. -/
def joinFields : List (List Nat) → List Nat
  | [] => []
  | f :: fs => f ++ DELIM :: joinFields fs

/-- Splits a byte sequence at delimiter bytes; a trailing fragment not
terminated by a delimiter still yields a (malformed) field. -/
def splitFields : List Nat → List (List Nat)
  | [] => []
  | b :: rest =>
      if b = DELIM then [] :: splitFields rest
      else
        match splitFields rest with
        | [] => [[b]]
        | f :: fs => (b :: f) :: fs

/-- Modelled from the spec: `operator<<` of `IOEvent.cpp` (absent from the
provided sources).  Serializes the nine fields accounted by `max_size`, in
the field order of the record, each followed by a delimiter. -/
def encode (e : IOEvent) : List Nat :=
  joinFields
    [encNat e.pid, encNat e.cpid, encNat e.ppid,
     encNat e.eventType, encNat e.mode,
     encNat (if e.modified then 1 else 0),
     e.executable, e.src_path, e.dst_path]

/-- Modelled from the spec: `operator>>` of `IOEvent.cpp` (absent from the
provided sources).  Splits at delimiters and parses the nine fields; any
other field count is a malformed record (`none`).  The two fields that are
not on the wire are reconstructed as at interposition-side construction:
`oppid` from the parent pid, `auditToken` unset. -/
def decode (l : List Nat) : Option IOEvent :=
  match splitFields l with
  | [p, cp, pp, ty, md, mo, ex, sp, dp] =>
      some { pid := decNat p, cpid := decNat cp, ppid := decNat pp,
             eventType := decNat ty, mode := decNat md,
             modified := decNat mo != 0,
             executable := ex, src_path := sp, dst_path := dp,
             oppid := decNat pp, auditToken := none }
  | _ => none

/-!
Concrete instances used to exercise the theorems below on closed inputs.
Paths are byte lists: `[47, 97]` is `"/a"`, `[47, 98]` is `"/b"`,
`[47, 116, 109, 112, 47, 97]` is `"/tmp/a"`.
-/

/-- A concrete environment: every `stat` fails, the executable of pid `p`
resolves to the two bytes `[47, p]`, the report sequence leaves errno at 7,
the process is pid 100 with parent pid 1. -/
def envA : SandboxEnv :=
  { fs := fun _ => none,
    get_executable_path := fun p => [47, p],
    sendErrnoEffect := fun _ => 7,
    getpid := 100,
    getppid := 1 }

/-- A concrete environment where every `stat` reports mode 420. -/
def envB : SandboxEnv :=
  { fs := fun _ => some 420,
    get_executable_path := fun p => [47, p],
    sendErrnoEffect := fun e => e,
    getpid := 100,
    getppid := 1 }

/-- A concrete kernel message with discriminant 50
(`ES_EVENT_TYPE_AUTH_CHDIR`). -/
def msg50 : ESMessage :=
  { eventType := 50, pid := 100, ppid := 1, oppid := 1,
    auditToken := { val := [0, 0, 0, 0, 0, 0, 0, 0] },
    executable := [47, 98], payloadPath := some [47, 97], payloadMode := 420 }

/-- The record produced by constructor (a) for pid 100, parent pid 5, event
type 9, empty paths, executable `[47]`, with a failing `stat`. -/
def evQuery : IOEvent :=
  { pid := 100, cpid := 0, ppid := 5, eventType := 9, mode := 0,
    modified := false, executable := [47], src_path := [], dst_path := [],
    oppid := 5, auditToken := none }

/-- A concrete fully-populated record for exercising the wire codec. -/
def evWire : IOEvent :=
  { pid := 100, cpid := 0, ppid := 1, eventType := 33, mode := 420,
    modified := true, executable := [47, 98],
    src_path := [47, 116, 109, 112, 47, 97], dst_path := [],
    oppid := 1, auditToken := none }

/-!
Codec helper lemmas.
-/

/-- Decimal decoding inverts decimal encoding. -/
theorem decNat_encNat (n : Nat) : decNat (encNat n) = n := by
  have h : (Nat.digits 10 n).map ((fun d => d - 48) ∘ fun d => d + 48) =
      (Nat.digits 10 n).map id := by
    apply List.map_congr_left
    intro d _
    simp

  simp only [decNat, encNat, List.map_map, h, List.map_id]
  exact Nat.ofDigits_digits 10 n

/-- Every byte of a decimal field is an ASCII digit, hence not the delimiter. -/
theorem delim_not_mem_encNat (n : Nat) : DELIM ∉ encNat n := by
  intro h
  simp only [encNat, List.mem_map] at h
  obtain ⟨d, hd, hdeq⟩ := h
  have hlt : d < 10 := Nat.digits_lt_base (by norm_num) hd
  simp only [DELIM] at hdeq
  omega

/-- Splitting after a delimiter-terminated delimiter-free field peels off that
field. -/
theorem splitFields_append (f rest : List Nat) (hf : DELIM ∉ f) :
    splitFields (f ++ DELIM :: rest) = f :: splitFields rest := by
  induction f with
  | nil => simp [splitFields]
  | cons b f ih =>
      have hb : b ≠ DELIM := fun h => hf (h ▸ List.mem_cons_self b f)
      have hf' : DELIM ∉ f := fun h => hf (List.mem_cons_of_mem b h)
      have ihr := ih hf'
      simp only [List.cons_append, splitFields, if_neg hb, List.append_eq, ihr]

/-- Splitting inverts joining, provided no field contains the delimiter. -/
theorem splitFields_joinFields (fs : List (List Nat))
    (h : ∀ f ∈ fs, DELIM ∉ f) :
    splitFields (joinFields fs) = fs := by
  induction fs with
  | nil => rfl
  | cons f fs ih =>
      have hf : DELIM ∉ f := h f (List.mem_cons_self f fs)
      have hrest : ∀ g ∈ fs, DELIM ∉ g := fun g hg => h g (List.mem_cons_of_mem f hg)
      simp only [joinFields, splitFields_append f _ hf, ih hrest]

/-!
Constructor and cache helper lemmas.
-/

/-- Constructor (a) succeeds on a non-empty executable path and yields exactly
the record its body assembles. -/
theorem mkQueryMode_eq_some (fs : FileSystem) (pid cpid ppid type : Nat)
    (src dst : Option (List Nat)) (exec : List Nat) (gm md : Bool)
    (hexec : exec ≠ []) :
    IOEvent.mkQueryMode fs pid cpid ppid type src dst exec gm md =
      some { pid := pid, cpid := cpid, ppid := ppid, eventType := type,
             mode := if gm then (fs (src.getD [])).getD 0 else 0,
             modified := md, executable := exec,
             src_path := src.getD [], dst_path := dst.getD [],
             oppid := ppid, auditToken := none } := by
  unfold IOEvent.mkQueryMode
  rw [if_neg hexec]

/-- A freshly inserted cache entry is found by a lookup for its path. -/
theorem cacheGet_cons_self (c : List (List Nat × Int)) (p : List Nat) (f : Int) :
    cacheGet ((p, f) :: c) p = some f := by
  unfold cacheGet
  rw [List.find?_cons_of_pos _ (by simp)]
  rfl

/-!
Claim theorems.
-/

/-- C1: a write-style wrapper constructs and reports an event exactly when the
intercepted call succeeded (`success == 0`) and the path is not already in the
process-lifetime dedup cache; consequently two successive successful writes to
the same fresh path report exactly one event (the path is inserted before the
first report, so the second write finds it cached). -/
theorem writeWrapper_gating_and_dedup (env : SandboxEnv)
    (success result result2 fildes fildes2 : Int)
    (path dst dst2 : List Nat) (st : WriteState) (errno0 errno1 : Nat)
    (hexec : env.get_executable_path env.getpid ≠ []) :
    ((writeWrapper env success fildes path dst st result errno0).1.events ≠ [] ↔
      success = 0 ∧ cacheGet st.trackedPaths path = none) ∧
    (cacheGet st.trackedPaths path = none →
      (writeWrapper env 0 fildes path dst st result errno0).1.events.length +
      (writeWrapper env 0 fildes2 path dst2
        (writeWrapper env 0 fildes path dst st result errno0).2
        result2 errno1).1.events.length = 1) := by
  have hmk := fun dst3 =>
    mkQueryMode_eq_some env.fs env.getpid 0 env.getppid ES_EVENT_TYPE_NOTIFY_WRITE
      (some path) (some dst3) (env.get_executable_path env.getpid) true false hexec
  constructor
  · rcases Decidable.em (success = 0) with hs | hs
    · subst hs
      rcases h : cacheGet st.trackedPaths path with _ | entry
      · have hne : (writeWrapper env 0 fildes path dst st result errno0).1.events ≠ [] := by
          unfold writeWrapper
          rw [if_pos rfl]
          simp [h, hmk dst]
        simp [hne, h]
      · have hnil : (writeWrapper env 0 fildes path dst st result errno0).1.events = [] := by
          unfold writeWrapper
          rw [if_pos rfl]
          simp [h]
        simp [hnil, h]
    · have hnil : (writeWrapper env success fildes path dst st result errno0).1.events = [] := by
        unfold writeWrapper
        rw [if_neg hs]
      simp [hnil, hs]
  · intro hfresh
    have hst : (writeWrapper env 0 fildes path dst st result errno0).2 =
        WriteState.mk ((path, fildes) :: st.trackedPaths) := by
      unfold writeWrapper
      rw [if_pos rfl]
      simp [hfresh, hmk dst]
    have hlen1 : (writeWrapper env 0 fildes path dst st result errno0).1.events.length = 1 := by
      unfold writeWrapper
      rw [if_pos rfl]
      simp [hfresh, hmk dst]
    have h2 : (writeWrapper env 0 fildes2 path dst2
        (WriteState.mk ((path, fildes) :: st.trackedPaths)) result2 errno1).1.events = [] := by
      unfold writeWrapper
      rw [if_pos rfl]
      simp [cacheGet_cons_self]
    rw [hst, h2, hlen1]
    rfl

/-- C1 witness: concrete instance — pid 100 writes `/tmp/a` twice with a fresh
cache; the gating equivalence holds and exactly one event is reported. -/
theorem writeWrapper_gating_and_dedup_witness :
    ((writeWrapper envB 0 3 [47, 116, 109, 112, 47, 97] [] ⟨[]⟩ 0 0).1.events ≠ [] ↔
      (0 : Int) = 0 ∧ cacheGet (WriteState.mk []).trackedPaths [47, 116, 109, 112, 47, 97] = none) ∧
    (cacheGet (WriteState.mk []).trackedPaths [47, 116, 109, 112, 47, 97] = none →
      (writeWrapper envB 0 3 [47, 116, 109, 112, 47, 97] [] ⟨[]⟩ 0 0).1.events.length +
      (writeWrapper envB 0 3 [47, 116, 109, 112, 47, 97] []
        (writeWrapper envB 0 3 [47, 116, 109, 112, 47, 97] [] ⟨[]⟩ 0 0).2
        0 0).1.events.length = 1) :=
  writeWrapper_gating_and_dedup envB 0 0 0 3 3
    [47, 116, 109, 112, 47, 97] [] [] ⟨[]⟩ 0 0 (by decide)

/-- C2: a fork-style wrapper constructs nothing when the raw result fails the
success comparison, and otherwise constructs exactly one `NOTIFY_FORK` event
whose child pid is the out-parameter value and whose executable path is the
child's independently resolved one. -/
theorem forkWrapper_gating (env : SandboxEnv) (cmp : Int → Bool) (result : Int)
    (child_pid pid ppid errno0 : Nat)
    (hexec : env.get_executable_path child_pid ≠ []) :
    (cmp result = false → (forkWrapper env cmp result child_pid pid ppid errno0).events = []) ∧
    (cmp result = true →
      ∃ ev, (forkWrapper env cmp result child_pid pid ppid errno0).events = [ev] ∧
        ev.GetEventType = ES_EVENT_TYPE_NOTIFY_FORK ∧
        ev.GetChildPid = child_pid ∧
        ev.GetPid = pid ∧
        ev.GetParentPid = ppid ∧
        ev.executable = env.get_executable_path child_pid) := by
  constructor
  · intro h
    simp [forkWrapper, h]
  · intro h
    have hmk := mkQueryMode_eq_some env.fs pid child_pid ppid ES_EVENT_TYPE_NOTIFY_FORK
      (some []) (some []) (env.get_executable_path child_pid) false false hexec
    unfold forkWrapper
    rw [if_pos h]
    simp only [hmk]
    exact ⟨_, rfl, rfl, rfl, rfl, rfl, rfl⟩

/-- C2 witness: concrete instance — `fork` returning 0 under the `>= 0`
success comparison for parent pid 100, child pid 200. -/
theorem forkWrapper_gating_witness :
    ((decide ((0 : Int) ≥ 0)) = false →
      (forkWrapper envA (fun r => decide (r ≥ 0)) 0 200 100 1 0).events = []) ∧
    ((decide ((0 : Int) ≥ 0)) = true →
      ∃ ev, (forkWrapper envA (fun r => decide (r ≥ 0)) 0 200 100 1 0).events = [ev] ∧
        ev.GetEventType = ES_EVENT_TYPE_NOTIFY_FORK ∧
        ev.GetChildPid = 200 ∧
        ev.GetPid = 100 ∧
        ev.GetParentPid = 1 ∧
        ev.executable = [47, 200]) :=
  forkWrapper_gating envA (fun r => decide (r ≥ 0)) 0 200 100 1 0 (by decide)

/-- C3: a kernel security message whose event-type discriminant has no
extraction rule in the per-type table yields a hard unhandled-variant failure
from the adapter, never an `ok` record. -/
theorem mkFromESMessage_unmapped_fails (table : Nat → Option ExtractRule)
    (msg : ESMessage) (h : table msg.eventType = none) :
    mkFromESMessage table msg = Except.error { eventType := msg.eventType } ∧
    ∀ ev : IOEvent, mkFromESMessage table msg ≠ Except.ok ev := by
  have herr : mkFromESMessage table msg = Except.error { eventType := msg.eventType } := by
    unfold mkFromESMessage
    rw [h]
  exact ⟨herr, fun ev hok => by rw [herr] at hok; cases hok⟩

/-- C3 witness: a table with no rule for discriminant 50 rejects a concrete
message carrying that discriminant. -/
theorem mkFromESMessage_unmapped_fails_witness :
    mkFromESMessage (fun _ => none) msg50 = Except.error { eventType := 50 } ∧
    ∀ ev : IOEvent, mkFromESMessage (fun _ => none) msg50 ≠ Except.ok ev :=
  mkFromESMessage_unmapped_fails (fun _ => none) msg50 rfl

/-- C4 counterexample: the explicit-mode raw-identifier constructor performs
no emptiness check — called with an empty `executablePath` it still returns a
fully-built record (every field populated), refuting the claim that both
raw-identifier constructors fail fast on an empty executable path. -/
theorem mkExplicitMode_empty_exec_builds :
    IOEvent.mkExplicitMode 100 0 1 13 [47, 97] [] [] 420 false =
      { pid := 100, cpid := 0, ppid := 1, eventType := 13, mode := 420,
        modified := false, executable := [], src_path := [47, 97],
        dst_path := [], oppid := 1, auditToken := none } := rfl

/-- C4 amended: the raw-identifier constructor that queries the filesystem
mode fails fast (produces no record) exactly on an empty `executablePath`;
the explicit-mode raw-identifier constructor performs no such check and
stores whatever executable it is given. -/
theorem mkQueryMode_empty_exec_precondition (fs : FileSystem)
    (pid cpid ppid type mode : Nat) (src dst : Option (List Nat))
    (s d exec : List Nat) (gm md md2 : Bool) :
    (IOEvent.mkQueryMode fs pid cpid ppid type src dst exec gm md = none ↔ exec = []) ∧
    (IOEvent.mkExplicitMode pid cpid ppid type s d exec mode md2).executable = exec := by
  constructor
  · unfold IOEvent.mkQueryMode
    rcases Decidable.em (exec = []) with he | he
    · simp [he]
    · simp [he]
  · rfl

/-- C5 counterexample: the exec-style and exit-style wrappers perform no errno
save/restore — with a report sequence that leaves errno at 7 and an
intercepted-call errno of 2, the wrapper finishes with errno 7, refuting the
claim that every wrapper preserves errno. -/
theorem execExitWrapper_errno_not_preserved :
    (execWrapper envA [47, 97] 2).2 = 7 ∧
    (exitWrapper envA 2).2 = 7 ∧
    (7 : Nat) ≠ 2 := ⟨rfl, rfl, by decide⟩

/-- C5 amended: the default, no-resolve, fork, stat and write wrappers all
save errno before the construct-and-report sequence and restore it on every
path, so the errno they finish with equals the errno of the intercepted call;
the exec-style and exit-style wrappers do no save/restore and finish with
whatever errno the report sequence leaves behind. -/
theorem wrappers_preserve_errno (env : SandboxEnv) (type : Nat)
    (src dst : Option (List Nat)) (gm report : Bool) (cmp : Int → Bool)
    (result success fildes : Int) (child_pid pid ppid st_mode : Nat)
    (path dst2 epath : List Nat) (st : WriteState) (errno0 : Nat) :
    (defaultWrapper env type src dst gm result errno0).errno = errno0 ∧
    (defaultNoResolveWrapper env type src dst report result errno0).errno = errno0 ∧
    (forkWrapper env cmp result child_pid pid ppid errno0).errno = errno0 ∧
    (statWrapper env type src st_mode result errno0).errno = errno0 ∧
    ((writeWrapper env success fildes path dst2 st result errno0).1).errno = errno0 ∧
    (execWrapper env epath errno0).2 = env.sendErrnoEffect errno0 ∧
    (exitWrapper env errno0).2 = env.sendErrnoEffect errno0 := by
  refine ⟨rfl, rfl, rfl, rfl, ?_, rfl, rfl⟩
  unfold writeWrapper
  rcases Decidable.em (success = 0) with hs | hs
  · rw [if_pos hs]
    rcases h : cacheGet st.trackedPaths path with _ | entry
    · simp [h]
    · simp [h]
  · rw [if_neg hs]

/-- C6: constructor (a) with the mode-query flag set performs the filesystem
status query on the source path, stores 0 without failing when the query
fails, and `EventPathExists()` is false exactly when the stored mode is 0. -/
theorem mkQueryMode_stat_contract (fs : FileSystem) (pid cpid ppid type : Nat)
    (src : List Nat) (dst : Option (List Nat)) (exec : List Nat)
    (modified : Bool) (hexec : exec ≠ []) :
    ∃ ev, IOEvent.mkQueryMode fs pid cpid ppid type (some src) dst exec true modified =
        some ev ∧
      ev.GetMode = (fs src).getD 0 ∧
      (fs src = none → ev.GetMode = 0) ∧
      (ev.EventPathExists = false ↔ ev.GetMode = 0) := by
  rw [mkQueryMode_eq_some fs pid cpid ppid type (some src) dst exec true modified hexec]
  refine ⟨_, rfl, rfl, ?_, ?_⟩
  · intro h
    simp [IOEvent.GetMode, h]
  · simp [IOEvent.EventPathExists, IOEvent.GetMode]

/-- C6 witness: a concrete construction with a filesystem on which every
`stat` fails yields mode 0 and `EventPathExists() = false`. -/
theorem mkQueryMode_stat_contract_witness :
    ∃ ev, IOEvent.mkQueryMode envA.fs 100 0 1 13 (some [47, 97]) (some []) [47, 98]
        true false = some ev ∧
      ev.GetMode = (envA.fs [47, 97]).getD 0 ∧
      (envA.fs [47, 97] = none → ev.GetMode = 0) ∧
      (ev.EventPathExists = false ↔ ev.GetMode = 0) :=
  mkQueryMode_stat_contract envA.fs 100 0 1 13 [47, 97] (some []) [47, 98] false (by decide)

/-- C7 counterexample: an interposition-backing constructor does not leave
`originalParentPid` zeroed — it copies the parent pid into it, so a record
built with parent pid 5 reports original parent pid 5, not 0. -/
theorem interposition_oppid_not_zeroed :
    (IOEvent.mkExplicitMode 100 0 5 9 [] [] [47] 0 false).GetOriginalParentPid = 5 ∧
    (5 : Nat) ≠ 0 := ⟨rfl, by decide⟩

/-- C7 amended: both interposition-backing constructors set
`originalParentPid` to the supplied parent pid (`oppid_ = ppid_`) rather than
leaving it undefined or zeroed, and neither ever populates the audit token. -/
theorem interposition_security_context_fields (fs : FileSystem)
    (pid cpid ppid type mode : Nat) (src dst : Option (List Nat))
    (s d exec2 : List Nat) (gm md md2 : Bool) (exec : List Nat) (ev : IOEvent)
    (h : IOEvent.mkQueryMode fs pid cpid ppid type src dst exec gm md = some ev) :
    (ev.GetOriginalParentPid = ppid ∧ ev.auditToken = none) ∧
    ((IOEvent.mkExplicitMode pid cpid ppid type s d exec2 mode md2).GetOriginalParentPid = ppid ∧
     (IOEvent.mkExplicitMode pid cpid ppid type s d exec2 mode md2).auditToken = none) := by
  refine ⟨?_, rfl, rfl⟩
  unfold IOEvent.mkQueryMode at h
  rcases Decidable.em (exec = []) with he | he
  · rw [if_pos he] at h
    cases h
  · rw [if_neg he] at h
    cases h
    exact ⟨rfl, rfl⟩

/-- C7 witness: concrete records from both interposition constructors carry
`oppid = ppid = 5` and no audit token. -/
theorem interposition_security_context_fields_witness :
    (evQuery.GetOriginalParentPid = 5 ∧ evQuery.auditToken = none) ∧
    ((IOEvent.mkExplicitMode 100 0 5 9 [] [] [47] 0 false).GetOriginalParentPid = 5 ∧
     (IOEvent.mkExplicitMode 100 0 5 9 [] [] [47] 0 false).auditToken = none) :=
  interposition_security_context_fields (fun _ => none) 100 0 5 9 0
    (some []) (some []) [] [] [47] true false false [47] evQuery rfl

/-- C8: `max_size()` evaluates exactly to the documented formula — the pid
width is the 5 decimal digits of `PID_MAX = 99999`, the 16-bit field width is
the 5 decimal digits of `USHRT_MAX = 65535`, the boolean literal
`std::to_string(true)` is one byte, plus three `PATH_MAX` paths and 9
delimiter bytes, i.e. `3 * PATH_MAX + 35`. -/
theorem max_size_formula :
    max_size = 3 * PATH_MAX + 35 ∧
    decimalWidth PID_MAX = 5 ∧
    decimalWidth USHRT_MAX = 5 ∧
    decimalWidth 1 = 1 ∧
    max_size = 3107 :=
  ⟨rfl, rfl, rfl, rfl, rfl⟩

/-- C9: the wire codec round-trips — decoding the encoding of any valid
record (one whose path payloads avoid the delimiter byte) succeeds and
reproduces every serialized field: the three pids, event type, mode,
modified flag, executable, source and destination paths. -/
theorem decode_encode_roundtrip (e : IOEvent)
    (hex : DELIM ∉ e.executable) (hsrc : DELIM ∉ e.src_path)
    (hdst : DELIM ∉ e.dst_path) :
    ∃ d, decode (encode e) = some d ∧
      d.GetPid = e.pid ∧ d.GetChildPid = e.cpid ∧ d.GetParentPid = e.ppid ∧
      d.GetEventType = e.eventType ∧ d.GetMode = e.mode ∧
      d.FSEntryModified = e.modified ∧
      d.executable = e.executable ∧ d.src_path = e.src_path ∧
      d.dst_path = e.dst_path := by
  have hsplit : splitFields (encode e) =
      [encNat e.pid, encNat e.cpid, encNat e.ppid, encNat e.eventType,
       encNat e.mode, encNat (if e.modified then 1 else 0),
       e.executable, e.src_path, e.dst_path] := by
    apply splitFields_joinFields
    intro f hf
    simp only [List.mem_cons, List.not_mem_nil, or_false] at hf
    rcases hf with h | h | h | h | h | h | h | h | h <;> subst h
    · exact delim_not_mem_encNat _
    · exact delim_not_mem_encNat _
    · exact delim_not_mem_encNat _
    · exact delim_not_mem_encNat _
    · exact delim_not_mem_encNat _
    · exact delim_not_mem_encNat _
    · exact hex
    · exact hsrc
    · exact hdst
  unfold decode
  rw [hsplit]
  refine ⟨_, rfl, ?_, ?_, ?_, ?_, ?_, ?_, rfl, rfl, rfl⟩
  · exact decNat_encNat e.pid
  · exact decNat_encNat e.cpid
  · exact decNat_encNat e.ppid
  · exact decNat_encNat e.eventType
  · exact decNat_encNat e.mode
  · show (decNat (encNat (if e.modified then 1 else 0)) != 0) = e.modified
    rw [decNat_encNat]
    cases e.modified <;> rfl

/-- C9 witness: a concrete record (`NOTIFY_WRITE` of `/tmp/a` by pid 100,
executable `/b`, mode 420, modified) survives the round trip. -/
theorem decode_encode_roundtrip_witness :
    ∃ d, decode (encode evWire) = some d ∧
      d.GetPid = evWire.pid ∧ d.GetChildPid = evWire.cpid ∧
      d.GetParentPid = evWire.ppid ∧ d.GetEventType = evWire.eventType ∧
      d.GetMode = evWire.mode ∧ d.FSEntryModified = evWire.modified ∧
      d.executable = evWire.executable ∧ d.src_path = evWire.src_path ∧
      d.dst_path = evWire.dst_path :=
  decode_encode_roundtrip evWire (by decide) (by decide) (by decide)

/-- C10: the convenience constructor produces a record identical in every
field to the explicit-mode raw-identifier constructor invoked with
`pid = getpid()`, `childPid = 0`, `parentPid = getppid()` and the same type,
paths, executable, mode and modified flag; its mode is the given mode,
untouched by any filesystem query. -/
theorem mkConvenience_refines_mkExplicitMode (getpid getppid type mode : Nat)
    (modified : Bool) (src exec dest : List Nat) :
    IOEvent.mkConvenience getpid getppid type src exec mode modified dest =
      IOEvent.mkExplicitMode getpid 0 getppid type src dest exec mode modified ∧
    (IOEvent.mkConvenience getpid getppid type src exec mode modified dest).GetMode = mode ∧
    (IOEvent.mkConvenience getpid getppid type src exec mode modified dest).GetPid = getpid ∧
    (IOEvent.mkConvenience getpid getppid type src exec mode modified dest).GetChildPid = 0 ∧
    (IOEvent.mkConvenience getpid getppid type src exec mode modified dest).GetParentPid = getppid :=
  ⟨rfl, rfl, rfl, rfl, rfl⟩

end BuildXLSandbox
